import Mathlib

/-!
Shallow embedding of `src/gocam-model.py` (GO-CAM in-memory data model).

Conventions of the embedding:
- Python objects become Lean structures holding the attributes the
  constructors assign.  The `uuid` instance handle is carried by no
  structure: no modelled operation ever reads it (`same` ignores it and
  the spec excludes it from equality).
- Python `dict`s become association lists `List (String × α)` kept in
  insertion order with unique keys; `dict` membership is key membership.
- A method that can raise returns `Except PyError α`; `.error e` models
  the exception `e` propagating.  A Python function that can also fall
  off its end (returning `None`) returns `Except PyError (Option Bool)`,
  where `.ok none` is the implicit `None` return.
- Mutating methods return the updated object (paired with the `Bool`
  the source returns, when it returns one).
-/

/-- Python exceptions that the modelled code can raise. -/
inductive PyError where
  | invalidAspect
  | attributeError
  | typeError
  | keyError
  | valueError
  deriving DecidableEq, Repr

/-- Source `EntityType` enum of the source. -/
inductive EntityType where
  | basic
  | evidence
  | term
  | gene_product
  | taxon
  | relationship
  | context
  | activity
  | contributor
  | group
  deriving DecidableEq, Repr

/-- Source `NamedEntity`: `__init__(id, label)`. -/
structure NamedEntity where
  id : String
  label : String
  deriving DecidableEq, Repr

/-- Source `NamedEntity.same`: false when id or label differ, else true. -/
def NamedEntity.same (self entity : NamedEntity) : Bool :=
  if self.id ≠ entity.id ∨ self.label ≠ entity.label then false
  else true

/-- Source `TypedNamedEntity`: adds the `type` tag. -/
structure TypedNamedEntity where
  id : String
  label : String
  type : EntityType
  deriving DecidableEq, Repr

/-- Source `TypedNamedEntity.same`: false when id, label or type differ, else true. -/
def TypedNamedEntity.same (self entity : TypedNamedEntity) : Bool :=
  if self.id ≠ entity.id ∨ self.label ≠ entity.label ∨ self.type ≠ entity.type then false
  else true

/-- Source `Term`: a `TypedNamedEntity` with an `aspect` that is itself an
optional `Term` (hence a recursive type). -/
inductive Term where
  | mk (id : String) (label : String) (type : EntityType) (aspect : Option Term)

def Term.id : Term → String
  | .mk i _ _ _ => i

def Term.label : Term → String
  | .mk _ l _ _ => l

def Term.type : Term → EntityType
  | .mk _ _ t _ => t

def Term.aspect : Term → Option Term
  | .mk _ _ _ a => a

/-- Structural equality test on `Term` (recursing through the optional
aspect), used to interpret Python `==` where the claims only exercise
its reflexive instances. -/
def Term.beq : Term → Term → Bool
  | .mk i1 l1 t1 none, .mk i2 l2 t2 none =>
      i1 == i2 && l1 == l2 && t1 == t2
  | .mk i1 l1 t1 (some a1), .mk i2 l2 t2 (some a2) =>
      i1 == i2 && l1 == l2 && t1 == t2 && Term.beq a1 a2
  | _, _ => false

instance : BEq Term := ⟨Term.beq⟩

/-- Source `Term.__init__(term_id, term_label)`: tag `TERM`, `aspect = None`. -/
def Term.init (term_id term_label : String) : Term :=
  .mk term_id term_label .term none

/-- Source `Term.set_aspect`. -/
def Term.set_aspect : Term → Term → Term
  | .mk i l t _, a => .mk i l t (some a)

/-- Source `self.aspect.get_id() == "GO:0003674"`: when `aspect` is `None` the
attribute access `get_id` on `None` raises `AttributeError`. -/
def isMfAspect : Option Term → Except PyError Bool
  | none => .error .attributeError
  | some a => .ok (a.id == "GO:0003674")

/-- Source `Term.is_mf`. -/
def Term.is_mf (self : Term) : Except PyError Bool :=
  isMfAspect self.aspect

/-- Source `Term.same`: base fields, then `self.aspect == term.aspect`.  Python
`==` on `Term` objects (no `__eq__`) is reference equality, which implies
the structural equality used here; on the reflexive instance `same(x,x)`
the two coincide exactly. -/
def Term.same (self term : Term) : Bool :=
  if self.id ≠ term.id ∨ self.label ≠ term.label ∨ self.type ≠ term.type then false
  else self.aspect == term.aspect

/-- Source `Taxon`: a `TypedNamedEntity` tagged `TAXON`. -/
structure Taxon where
  id : String
  label : String
  type : EntityType
  deriving DecidableEq, Repr

def Taxon.init (taxon_id taxon_label : String) : Taxon :=
  ⟨taxon_id, taxon_label, .taxon⟩

def Taxon.base (self : Taxon) : TypedNamedEntity :=
  ⟨self.id, self.label, self.type⟩

/-- Source `Taxon` inherits `same` from `TypedNamedEntity`. -/
def Taxon.same (self taxon : Taxon) : Bool :=
  self.base.same taxon.base

/-- Source `GeneProduct`: adds a `taxon`. -/
structure GeneProduct where
  id : String
  label : String
  type : EntityType
  taxon : Taxon
  deriving DecidableEq, Repr

def GeneProduct.init (gene_product_id gene_product_label : String) (taxon : Taxon) :
    GeneProduct :=
  ⟨gene_product_id, gene_product_label, .gene_product, taxon⟩

def GeneProduct.base (self : GeneProduct) : TypedNamedEntity :=
  ⟨self.id, self.label, self.type⟩

/-- Source `GeneProduct.same`: base fields, then `self.taxon.same(other.taxon)`. -/
def GeneProduct.same (self gene_product : GeneProduct) : Bool :=
  if self.id ≠ gene_product.id ∨ self.label ≠ gene_product.label ∨
      self.type ≠ gene_product.type then false
  else self.taxon.same gene_product.taxon

/-- Source `Contributor`: a `TypedNamedEntity` tagged `CONTRIBUTOR`.  The
`groups` map is omitted: no operation modelled by a claim reads it. -/
structure Contributor where
  id : String
  label : String
  type : EntityType
  deriving DecidableEq, Repr

def Contributor.init (orcid name : String) : Contributor :=
  ⟨orcid, name, .contributor⟩

/-- Source `Evidence`: contributors keyed by orcid, plus a date. The date is an
abstract timestamp (`Nat`); `__init__` stamps the creation time, passed
here explicitly as `now`. -/
structure Evidence where
  id : String
  label : String
  type : EntityType
  contributors : List (String × Contributor)
  date : Nat
  deriving DecidableEq, Repr

def Evidence.base (self : Evidence) : TypedNamedEntity :=
  ⟨self.id, self.label, self.type⟩

/-- Source `Evidence.set_contributor`: resets the map to the one entry. -/
def Evidence.set_contributor (self : Evidence) (contributor : Contributor) : Evidence :=
  { self with contributors := [(contributor.id, contributor)] }

/-- Source `Evidence.__init__`: base init, `set_contributor`, date = now. -/
def Evidence.init (evidence_id evidence_label : String) (contributor : Contributor)
    (now : Nat) : Evidence :=
  Evidence.set_contributor
    { id := evidence_id, label := evidence_label, type := .evidence,
      contributors := [], date := now } contributor

/-- Source `Evidence.add_contributor`: reject when the orcid is already a key,
else insert (Python dict insertion appends the new key). -/
def Evidence.add_contributor (self : Evidence) (contributor : Contributor) :
    Bool × Evidence :=
  if (self.contributors.map Prod.fst).contains contributor.id then (false, self)
  else (true, { self with contributors := self.contributors ++ [(contributor.id, contributor)] })

/-- Source `Evidence.set_date`. -/
def Evidence.set_date (self : Evidence) (date : Nat) : Evidence :=
  { self with date := date }

/-- Source `Evidence.same`: base `same`, equal sizes, every contributor key of
the argument present in `self`.  The `date` field is never compared. -/
def Evidence.same (self evidence : Evidence) : Bool :=
  if self.base.same evidence.base = false then false
  else if self.contributors.length ≠ evidence.contributors.length then false
  else (evidence.contributors.map Prod.fst).all
    (fun contributor_id => (self.contributors.map Prod.fst).contains contributor_id)

/-- Source `EvidencedRelationship` (and its field-identical subclasses
`TypedNamedEntityAssociation`, `ActivityAssociation`,
`ContextTargetAssociation`): subject, object, relationship identity,
evidences keyed by evidence id. -/
structure EvidencedRelationship where
  subject : TypedNamedEntity
  object : TypedNamedEntity
  id : String
  label : String
  type : EntityType
  evidences : List (String × Evidence)
  deriving DecidableEq, Repr

def EvidencedRelationship.base (self : EvidencedRelationship) : TypedNamedEntity :=
  ⟨self.id, self.label, self.type⟩

/-- Positional arguments of a Python constructor call. -/
inductive PyArg where
  | ent (e : TypedNamedEntity)
  | str (s : String)
  deriving DecidableEq, Repr

/-- Source `EvidencedRelationship.__init__(subject, object, relation_id,
relation_label)` called with a positional argument list; any other
shape of call raises `TypeError` (missing required arguments). -/
def EvidencedRelationship.initArgs : List PyArg → Except PyError EvidencedRelationship
  | [.ent subject, .ent object, .str relation_id, .str relation_label] =>
      .ok { subject := subject, object := object, id := relation_id,
            label := relation_label, type := .relationship, evidences := [] }
  | _ => .error .typeError

/-- Source `TypedNamedEntityAssociation.__init__(subject, object, relation_id,
relation_label)`: its body calls `super().__init__(relation_id,
relation_label)` — only two of the four arguments
`EvidencedRelationship.__init__` requires — then would set `subject` and
`object`. -/
def TypedNamedEntityAssociation.initArgs : List PyArg → Except PyError EvidencedRelationship
  | [.ent subject, .ent object, .str relation_id, .str relation_label] =>
      match EvidencedRelationship.initArgs [.str relation_id, .str relation_label] with
      | .error e => .error e
      | .ok base => .ok { base with subject := subject, object := object }
  | _ => .error .typeError

/-- Source `ActivityAssociation.__init__(activity, gene_product, relation_id,
relation_label)`: forwards all four arguments to
`TypedNamedEntityAssociation.__init__`. -/
def ActivityAssociation.init (activity : Term) (gene_product : GeneProduct)
    (relation_id relation_label : String) : Except PyError EvidencedRelationship :=
  TypedNamedEntityAssociation.initArgs
    [.ent ⟨activity.id, activity.label, activity.type⟩, .ent gene_product.base,
     .str relation_id, .str relation_label]

/-- Source `Context`: a `Term` retagged `CONTEXT`; see `Context.init`. -/
structure Context where
  id : String
  label : String
  type : EntityType
  aspect : Option Term

def Context.base (self : Context) : TypedNamedEntity :=
  ⟨self.id, self.label, self.type⟩

/-- Source `Context.__init__(term)`: `super().__init__(term.id, term.label)`
runs `Term.__init__`, which sets `aspect = None` — the input term's
aspect is NOT copied — then the tag becomes `CONTEXT` and
`self.is_mf()` is evaluated on that `None` aspect. -/
def Context.init (term : Term) : Except PyError Context :=
  let self : Context :=
    { id := term.id, label := term.label, type := .context, aspect := none }
  match isMfAspect self.aspect with
  | .error e => .error e
  | .ok true => .error .invalidAspect
  | .ok false => .ok self

/-- Source `ContextTargetAssociation.__init__(context, relation_id,
relation_label)`: calls `super().__init__` with those three arguments,
one short of the four `TypedNamedEntityAssociation.__init__` requires. -/
def ContextTargetAssociation.init (context : Context)
    (relation_id relation_label : String) : Except PyError EvidencedRelationship :=
  TypedNamedEntityAssociation.initArgs
    [.ent context.base, .str relation_id, .str relation_label]

/-- Source `Activity`: a `Term` retagged `ACTIVITY` with a map of context
target associations; see `Activity.init`. -/
structure Activity where
  id : String
  label : String
  type : EntityType
  aspect : Option Term
  context_targets : List (String × EvidencedRelationship)

/-- Source `Activity.__init__(activity_id, activity_label)`: `Term.__init__`
sets `aspect = None`, the tag becomes `ACTIVITY`, `context_targets`
starts empty, and `self.is_mf()` is evaluated on that `None` aspect. -/
def Activity.init (activity_id activity_label : String) : Except PyError Activity :=
  let self : Activity :=
    { id := activity_id, label := activity_label, type := .activity,
      aspect := none, context_targets := [] }
  match isMfAspect self.aspect with
  | .error e => .error e
  | .ok true => .ok self
  | .ok false => .error .invalidAspect

/-- Source `Activity.has_context`: key membership of the association id. -/
def Activity.has_context (self : Activity) (context_association : EvidencedRelationship) :
    Bool :=
  (self.context_targets.map Prod.fst).contains context_association.id

/-- Source `Activity.add_context`: reject an existing association id. -/
def Activity.add_context (self : Activity) (context_association : EvidencedRelationship) :
    Bool × Activity :=
  if self.has_context context_association then (false, self)
  else (true, { self with context_targets :=
                  self.context_targets ++ [(context_association.id, context_association)] })

/-- Source `Activity.remove_context`: reject an absent association id. -/
def Activity.remove_context (self : Activity) (context_association : EvidencedRelationship) :
    Bool × Activity :=
  if self.has_context context_association = false then (false, self)
  else (true, { self with context_targets :=
                  self.context_targets.filter (fun p => p.1 ≠ context_association.id) })

/-- Source `EvidencedRelationship.add_evidence`: Python dict assignment — upsert
keyed by the evidence id (overwrite in place, else append). -/
def EvidencedRelationship.add_evidence (self : EvidencedRelationship)
    (evidence : Evidence) : EvidencedRelationship :=
  if (self.evidences.map Prod.fst).contains evidence.id then
    { self with evidences :=
        self.evidences.map (fun p => if p.1 = evidence.id then (evidence.id, evidence) else p) }
  else { self with evidences := self.evidences ++ [(evidence.id, evidence)] }

/-- Source `EvidencedRelationship.remove_evidence`: `self.evidences.pop(evidence_id)`
with no default — a missing key raises `KeyError`; the map is unchanged by
the failed call.  Nothing is returned on success (`None`). -/
def EvidencedRelationship.remove_evidence (self : EvidencedRelationship)
    (evidence_id : String) : Except PyError EvidencedRelationship :=
  if (self.evidences.map Prod.fst).contains evidence_id then
    .ok { self with evidences := self.evidences.filter (fun p => p.1 ≠ evidence_id) }
  else .error .keyError

/-- Body of the loop `for key,val in self.evidences` of
`EvidencedRelationship.same`: iterating a dict yields its keys, and each
key — an evidence-id string — is unpacked into the pair `(key, val)`.
Unpacking a string succeeds only when it has exactly two characters
(binding its two characters); otherwise it raises `ValueError`.  When it
succeeds, `key` is the first character; if that character is not a key of
the other map the function returns `False`, and otherwise `val.same(...)`
is an attribute access on a one-character string, raising
`AttributeError` before the loop can ever continue. -/
def evidencedSameLoop (relation : EvidencedRelationship) :
    List String → Except PyError (Option Bool)
  | [] => .ok none
  | k :: _rest =>
      match k.data with
      | [c1, _c2] =>
          if (relation.evidences.map Prod.fst).contains (String.singleton c1) = false then
            .ok (some false)
          else .error .attributeError
      | _ => .error .valueError

/-- Source `EvidencedRelationship.same`: base `same`, equal sizes, then the
key/value loop.  No `return True` is ever reached: when the evidence map
is empty the function falls off its end and returns `None`. -/
def EvidencedRelationship.same (self relation : EvidencedRelationship) :
    Except PyError (Option Bool) :=
  if self.base.same relation.base = false then .ok (some false)
  else if self.evidences.length ≠ relation.evidences.length then .ok (some false)
  else evidencedSameLoop relation (self.evidences.map Prod.fst)

/-- Source `GOCam` aggregate: a multigraph of activities (nodes keyed by
activity id, parallel directed edges `(src, dst, relationType)` in
insertion order) plus contributor and context catalogs. -/
structure GOCam where
  id : String
  title : String
  creation_date : Option Nat
  modified_date : Option Nat
  nodes : List (String × Activity)
  edges : List (String × String × String)
  contributors : List (String × Contributor)
  contexts : List (String × Context)

/-- Source `GOCam.__init__(model_id, model_title)`. -/
def GOCam.init (model_id model_title : String) : GOCam :=
  { id := model_id, title := model_title, creation_date := none,
    modified_date := none, nodes := [], edges := [],
    contributors := [], contexts := [] }

/-- Source `GOCam.add_contributor`: unconditional dict upsert keyed by orcid. -/
def GOCam.add_contributor (self : GOCam) (contributor : Contributor) : GOCam :=
  if (self.contributors.map Prod.fst).contains contributor.id then
    { self with contributors :=
        (self.contributors.map
          (fun p => if p.1 = contributor.id then (contributor.id, contributor) else p)) }
  else { self with contributors := self.contributors ++ [(contributor.id, contributor)] }

/-- Source `GOCam.has_contributor`. -/
def GOCam.has_contributor (self : GOCam) (orcid : String) : Bool :=
  (self.contributors.map Prod.fst).contains orcid

/-- Source `GOCam.has_activity`: node membership in the graph. -/
def GOCam.has_activity (self : GOCam) (activity_id : String) : Bool :=
  (self.nodes.map Prod.fst).contains activity_id

/-- Source `GOCam.add_activity`: reject when the activity id is already a node,
else add the node carrying the activity as data. -/
def GOCam.add_activity (self : GOCam) (activity : Activity) : Bool × GOCam :=
  if self.has_activity activity.id then (false, self)
  else (true, { self with nodes := self.nodes ++ [(activity.id, activity)] })

/-- Source `GOCam.remove_activity`: reject when absent, else remove the node
and (networkx `remove_node`) every incident edge. -/
def GOCam.remove_activity (self : GOCam) (activity_id : String) : Bool × GOCam :=
  if self.has_activity activity_id = false then (false, self)
  else (true, { self with
                  nodes := self.nodes.filter (fun p => p.1 ≠ activity_id),
                  edges := self.edges.filter
                    (fun e => e.1 ≠ activity_id ∧ e.2.1 ≠ activity_id) })

/-- networkx `MultiDiGraph.get_edge_data(u, v)`: the keyed dict of the
parallel edges from `u` to `v` — here, their relation types in key
order — or `None` when no edge from `u` to `v` exists. -/
def GOCam.get_edge_data (self : GOCam) (u v : String) : Option (List String) :=
  let l := (self.edges.filter (fun e => e.1 = u ∧ e.2.1 = v)).map (fun e => e.2.2)
  if l.isEmpty then none else some l

/-- Source `GOCam.has_causal_relationship`: iterates `get_edge_data(a1, a2)`
looking for an edge whose `type` equals `relation_type`.  When no edge
at all exists between the ordered pair, `get_edge_data` returns `None`
and `for edge in edges` raises `TypeError` (`None` is not iterable). -/
def GOCam.has_causal_relationship (self : GOCam)
    (activity_id1 activity_id2 relation_type : String) : Except PyError Bool :=
  match self.get_edge_data activity_id1 activity_id2 with
  | none => .error .typeError
  | some edges => .ok (edges.any (fun t => t == relation_type))

/-- Source `GOCam.add_causal_relationship`: reject when either endpoint is not
a registered node; otherwise unconditionally append a new parallel edge
tagged with the relation type. -/
def GOCam.add_causal_relationship (self : GOCam)
    (activity_id1 activity_id2 relation_type : String) : Bool × GOCam :=
  if self.has_activity activity_id1 = false ∨ self.has_activity activity_id2 = false then
    (false, self)
  else (true, { self with edges := self.edges ++ [(activity_id1, activity_id2, relation_type)] })

/-- Source `GOCam.add_context`: unconditional dict upsert keyed by context id. -/
def GOCam.add_context (self : GOCam) (context : Context) : GOCam :=
  if (self.contexts.map Prod.fst).contains context.id then
    { self with contexts :=
        self.contexts.map (fun p => if p.1 = context.id then (context.id, context) else p) }
  else { self with contexts := self.contexts ++ [(context.id, context)] }

/-- Source `GOCam.remove_context`: `self.contexts.pop(context_id)` with no
default — a missing key raises `KeyError`; the catalog is unchanged by
the failed call.  Nothing is returned on success (`None`). -/
def GOCam.remove_context (self : GOCam) (context_id : String) : Except PyError GOCam :=
  if (self.contexts.map Prod.fst).contains context_id then
    .ok { self with contexts := self.contexts.filter (fun p => p.1 ≠ context_id) }
  else .error .keyError

/-- Source `GOCam.has_context`. -/
def GOCam.has_context (self : GOCam) (context_id : String) : Bool :=
  (self.contexts.map Prod.fst).contains context_id

/-! ## Sanity checks of the embedding on concrete inputs -/

example : Term.is_mf (Term.set_aspect (Term.init "GO:0016301" "kinase activity")
    (Term.init "GO:0003674" "molecular_function")) = .ok true := rfl

example : (Evidence.init "ECO:1" "assay" (Contributor.init "orcid:1" "alice") 5).date = 5 := rfl

/-! ## Claims -/

/-- C1.  The claim says Activity construction succeeds iff the term's
aspect id is `GO:0003674` and fails with `InvalidAspect` otherwise.  The
code can do neither: `Activity.__init__` receives only an id and a
label, `Term.__init__` leaves `aspect = None`, and the guard
`self.is_mf()` dereferences that `None`, so every construction raises
`AttributeError` and no Activity is ever produced. -/
theorem c1_activity_construction_always_attribute_error
    (activity_id activity_label : String) :
    Activity.init activity_id activity_label = .error .attributeError := rfl

/-- C2.  The claim says Context construction succeeds iff the term's
aspect id differs from `GO:0003674` and fails with `InvalidAspect` on a
molecular-function term.  The code can do neither: `Context.__init__`
copies only `term.id` and `term.label`, `Term.__init__` resets
`aspect = None`, and the guard `self.is_mf()` dereferences that `None`,
so every construction raises `AttributeError` regardless of the input
term's aspect. -/
theorem c2_context_construction_always_attribute_error (term : Term) :
    Context.init term = .error .attributeError := rfl

/-- C3.  Constructing a `TypedNamedEntityAssociation`, an
`ActivityAssociation`, or a `ContextTargetAssociation` always raises
`TypeError`: `TypedNamedEntityAssociation.__init__` invokes
`EvidencedRelationship.__init__` with two of its four required
positional arguments, and `ContextTargetAssociation.__init__` invokes
`TypedNamedEntityAssociation.__init__` with three of four; so no
association value at this layer can ever be created. -/
theorem c3_association_constructors_raise_type_error
    (subject object : TypedNamedEntity) (activity : Term)
    (gene_product : GeneProduct) (context : Context)
    (relation_id relation_label : String) :
    TypedNamedEntityAssociation.initArgs
        [.ent subject, .ent object, .str relation_id, .str relation_label] =
      .error .typeError ∧
    ActivityAssociation.init activity gene_product relation_id relation_label =
      .error .typeError ∧
    ContextTargetAssociation.init context relation_id relation_label =
      .error .typeError :=
  ⟨rfl, rfl, rfl⟩

/-- The graph of C4's failing input: a fresh GOCam in which the
activities `A1` and `A2` are registered but no causal edge was ever
added. -/
def twoActivityCam : GOCam :=
  (((GOCam.init "gomodel:example" "example model").add_activity
      { id := "A1", label := "kinase activity", type := .activity,
        aspect := none, context_targets := [] }).2.add_activity
      { id := "A2", label := "phosphatase activity", type := .activity,
        aspect := none, context_targets := [] }).2

/-- C4.  The claim says `hasCausalRelationship` returns false whenever
no matching prior `addCausalRelationship` happened, including when no
edge at all exists between the ordered pair.  On that very case the code
instead raises `TypeError`: `get_edge_data` yields `None` and the loop
iterates it.  Witnessed on a GOCam holding registered activities `A1`
and `A2` with no edges. -/
theorem c4_has_causal_relationship_raises_on_no_edges :
    twoActivityCam.has_causal_relationship "A1" "A2" "RO:0002413" = .error .typeError := rfl

/-- C5.  `add_causal_relationship` fails and leaves the graph unchanged
when either endpoint id is not a registered node; when both are
registered it always appends a new parallel edge tagged with the
relation type — no duplicate check — so a repeated identical call
appends a second identical edge. -/
theorem c5_add_causal_relationship_spec (g : GOCam) (src dst ty : String) :
    (g.has_activity src = false ∨ g.has_activity dst = false →
      g.add_causal_relationship src dst ty = (false, g)) ∧
    (g.has_activity src = true → g.has_activity dst = true →
      g.add_causal_relationship src dst ty =
        (true, { g with edges := g.edges ++ [(src, dst, ty)] }) ∧
      ((g.add_causal_relationship src dst ty).2.add_causal_relationship src dst ty).2.edges =
        g.edges ++ [(src, dst, ty), (src, dst, ty)]) := by
  constructor
  · intro h
    simp only [GOCam.add_causal_relationship, if_pos h]
  · intro h1 h2
    have hcond : ¬(g.has_activity src = false ∨ g.has_activity dst = false) := by
      simp [h1, h2]
    constructor
    · simp only [GOCam.add_causal_relationship, if_neg hcond]
    · simp only [GOCam.add_causal_relationship, if_neg hcond]
      simp [GOCam.add_causal_relationship, GOCam.has_activity] at h1 h2 ⊢
      simp [h1, h2]

/-- Witness for C5 at concrete inputs: on an empty GOCam the call fails
and mutates nothing; on `twoActivityCam` it succeeds, appends the edge,
and an identical second call appends a duplicate parallel edge. -/
theorem c5_add_causal_relationship_spec_witness :
    ((GOCam.init "gomodel:empty" "empty").add_causal_relationship "A1" "A2" "RO:0002413" =
      (false, GOCam.init "gomodel:empty" "empty")) ∧
    (twoActivityCam.add_causal_relationship "A1" "A2" "RO:0002413" =
      (true, { twoActivityCam with
                 edges := twoActivityCam.edges ++ [("A1", "A2", "RO:0002413")] }) ∧
    ((twoActivityCam.add_causal_relationship "A1" "A2"
        "RO:0002413").2.add_causal_relationship "A1" "A2" "RO:0002413").2.edges =
      twoActivityCam.edges ++ [("A1", "A2", "RO:0002413"), ("A1", "A2", "RO:0002413")]) :=
  ⟨(c5_add_causal_relationship_spec (GOCam.init "gomodel:empty" "empty")
      "A1" "A2" "RO:0002413").1 (Or.inl rfl),
   (c5_add_causal_relationship_spec twoActivityCam "A1" "A2" "RO:0002413").2 rfl rfl⟩

/-- C6.  `add_activity` fails and leaves the graph unchanged when an
Activity with the same id is already a node; otherwise it appends the
node keyed by the activity id and succeeds — after which a second call
with any activity carrying the same id fails and leaves the graph
unchanged. -/
theorem c6_add_activity_spec (g : GOCam) (a a' : Activity) :
    (g.has_activity a.id = true → g.add_activity a = (false, g)) ∧
    (g.has_activity a.id = false →
      g.add_activity a = (true, { g with nodes := g.nodes ++ [(a.id, a)] }) ∧
      (a'.id = a.id →
        (g.add_activity a).2.add_activity a' = (false, (g.add_activity a).2))) := by
  constructor
  · intro h
    simp only [GOCam.add_activity, if_pos h]
  · intro h
    have hadd : g.add_activity a = (true, { g with nodes := g.nodes ++ [(a.id, a)] }) := by
      simp [GOCam.add_activity, h]
    refine ⟨hadd, fun hid => ?_⟩
    rw [hadd]
    have hmem : ({ g with nodes := g.nodes ++ [(a.id, a)] } : GOCam).has_activity a'.id
        = true := by
      simp [GOCam.has_activity, hid]
    simp only [GOCam.add_activity, if_pos hmem]

/-- Fresh GOCam used by concrete witnesses. -/
def wCam : GOCam := GOCam.init "gomodel:witness" "witness model"

/-- A concrete activity value with id `A1`. -/
def actW1 : Activity :=
  { id := "A1", label := "kinase activity", type := .activity,
    aspect := none, context_targets := [] }

/-- A second concrete activity value carrying the same id `A1`. -/
def actW2 : Activity :=
  { id := "A1", label := "another activity", type := .activity,
    aspect := none, context_targets := [] }

/-- Witness for C6 at concrete inputs: the first `add_activity` succeeds
and appends the node; a second call with an activity of the same id (and
likewise a repeat of the original) fails and leaves the graph unchanged. -/
theorem c6_add_activity_spec_witness :
    (wCam.add_activity actW1 =
      (true, { wCam with nodes := wCam.nodes ++ [(actW1.id, actW1)] })) ∧
    ((wCam.add_activity actW1).2.add_activity actW2 =
      (false, (wCam.add_activity actW1).2)) ∧
    ((wCam.add_activity actW1).2.add_activity actW1 =
      (false, (wCam.add_activity actW1).2)) :=
  ⟨((c6_add_activity_spec wCam actW1 actW2).2 rfl).1,
   ((c6_add_activity_spec wCam actW1 actW2).2 rfl).2 rfl,
   (c6_add_activity_spec (wCam.add_activity actW1).2 actW1 actW2).1 rfl⟩

/-- Structural `Term` equality is reflexive. -/
theorem Term.beq_refl : ∀ t : Term, Term.beq t t = true
  | .mk _ _ _ none => by simp [Term.beq]
  | .mk _ _ _ (some a) => by simp [Term.beq, Term.beq_refl a]

/-- Source `==` on optional aspects is reflexive. -/
theorem optionTermBeq_refl (o : Option Term) : (o == o) = true := by
  cases o with
  | none => rfl
  | some t => rw [Option.some_beq_some]; exact Term.beq_refl t

/-- The concrete `EvidencedRelationship` on which C7 fails: produced by
the real constructor, its evidence map is empty. -/
def erC7 : EvidencedRelationship :=
  { subject := ⟨"GO:0016301", "kinase activity", .activity⟩,
    object := ⟨"UniProtKB:P00533", "EGFR", .gene_product⟩,
    id := "RO:0002333", label := "enabled by", type := .relationship,
    evidences := [] }

/-- C7.  `same(x, x)` is true for `NamedEntity`, `TypedNamedEntity`,
`Term`, `GeneProduct` and `Evidence`; but for `EvidencedRelationship`
the claim fails: on a freshly constructed relationship (empty evidence
map) `same(x, x)` falls off the end of the function and returns `None`
— a falsy value, not `True`. -/
theorem c7_same_reflexive_and_er_returns_none :
    (∀ x : NamedEntity, x.same x = true) ∧
    (∀ x : TypedNamedEntity, x.same x = true) ∧
    (∀ x : Term, x.same x = true) ∧
    (∀ x : GeneProduct, x.same x = true) ∧
    (∀ x : Evidence, x.same x = true) ∧
    (EvidencedRelationship.initArgs
        [.ent ⟨"GO:0016301", "kinase activity", .activity⟩,
         .ent ⟨"UniProtKB:P00533", "EGFR", .gene_product⟩,
         .str "RO:0002333", .str "enabled by"] = .ok erC7) ∧
    erC7.same erC7 = .ok none := by
  refine ⟨?_, ?_, ?_, ?_, ?_, rfl, rfl⟩
  · intro x; simp [NamedEntity.same]
  · intro x; simp [TypedNamedEntity.same]
  · intro x; simp [Term.same, optionTermBeq_refl]
  · intro x; simp [GeneProduct.same, Taxon.same, Taxon.base, TypedNamedEntity.same]
  · intro x
    simp [Evidence.same, Evidence.base, TypedNamedEntity.same, List.contains]

/-- Source `TypedNamedEntity.same` decides pointwise equality of id, label and
type. -/
theorem TypedNamedEntity.same_eq_true_iff (s t : TypedNamedEntity) :
    s.same t = true ↔ s.id = t.id ∧ s.label = t.label ∧ s.type = t.type := by
  simp only [TypedNamedEntity.same]
  split
  · rename_i h
    simp only [Bool.false_eq_true, false_iff]
    rintro ⟨e1, e2, e3⟩
    rcases h with h | h | h <;> contradiction
  · rename_i h
    push_neg at h
    simp [h.1, h.2.1, h.2.2]

/-- Two duplicate-free key lists of equal length, one containing the
other, have the same key set. -/
theorem keySet_eq_of_sub_of_length_eq {kx ky : List String}
    (hx : kx.Nodup) (hy : ky.Nodup) (hlen : kx.length = ky.length)
    (hsub : ∀ k ∈ ky, k ∈ kx) : kx.toFinset = ky.toFinset := by
  have hsub' : ky.toFinset ⊆ kx.toFinset := by
    intro k hk
    exact List.mem_toFinset.2 (hsub k (List.mem_toFinset.1 hk))
  have hcard : kx.toFinset.card ≤ ky.toFinset.card := by
    rw [List.toFinset_card_of_nodup hx, List.toFinset_card_of_nodup hy]
    exact le_of_eq hlen
  exact (Finset.eq_of_subset_of_card_le hsub' hcard).symm

def contribA : Contributor := Contributor.init "orcid:0000-0001" "alice"

def contribB : Contributor := Contributor.init "orcid:0000-0002" "bob"

/-- Evidence built at timestamp 100. -/
def evW1 : Evidence := Evidence.init "ECO:0000314" "direct assay" contribA 100

/-- The same evidence with its date moved to 200 — differing from `evW1`
only in the date. -/
def evW2 : Evidence := (Evidence.init "ECO:0000314" "direct assay" contribA 100).set_date 200

/-- Counterexample to C8 as stated: `evW1` and `evW2` differ only in
their date, yet `same` returns `True` — `Evidence.same` never reads the
`date` field, so "two Evidence objects differing only in date are not
same" is false. -/
theorem c8_date_ignored_counterexample :
    evW1.date ≠ evW2.date ∧
    evW1.id = evW2.id ∧ evW1.label = evW2.label ∧ evW1.type = evW2.type ∧
    evW1.contributors = evW2.contributors ∧
    evW1.same evW2 = true :=
  ⟨by decide, rfl, rfl, rfl, rfl, by decide⟩

/-- C8 amended.  For Evidence values with duplicate-free contributor
keys (as Python dicts guarantee), `same(x, y)` is true iff the
contributor-id sets are equal regardless of insertion order and id,
label and kind agree; the date plays no part, so two Evidence objects
differing only in date ARE `same`. -/
theorem c8_amended_evidence_same_iff (x y : Evidence)
    (hx : (x.contributors.map Prod.fst).Nodup)
    (hy : (y.contributors.map Prod.fst).Nodup) :
    x.same y = true ↔
      x.id = y.id ∧ x.label = y.label ∧ x.type = y.type ∧
      (x.contributors.map Prod.fst).toFinset = (y.contributors.map Prod.fst).toFinset := by
  simp only [Evidence.same]
  constructor
  · intro h
    by_cases h1 : x.base.same y.base = false
    · rw [if_pos h1] at h
      exact absurd h (by simp)
    · rw [if_neg h1] at h
      by_cases h2 : x.contributors.length ≠ y.contributors.length
      · rw [if_pos h2] at h
        exact absurd h (by simp)
      · rw [if_neg h2] at h
        push_neg at h2
        have hb : x.base.same y.base = true := by
          cases hb' : x.base.same y.base with
          | false => exact absurd hb' h1
          | true => rfl
        obtain ⟨hid, hlab, hty⟩ := (TypedNamedEntity.same_eq_true_iff _ _).1 hb
        refine ⟨hid, hlab, hty, ?_⟩
        have hsub : ∀ k ∈ y.contributors.map Prod.fst, k ∈ x.contributors.map Prod.fst := by
          intro k hk
          have hc := List.all_eq_true.1 h k hk
          simpa [List.contains] using hc
        exact keySet_eq_of_sub_of_length_eq hx hy (by simpa using h2) hsub
  · rintro ⟨hid, hlab, hty, hset⟩
    have hb : x.base.same y.base = true :=
      (TypedNamedEntity.same_eq_true_iff _ _).2 ⟨hid, hlab, hty⟩
    rw [if_neg (by simp [hb])]
    have hlen : (x.contributors.map Prod.fst).length = (y.contributors.map Prod.fst).length := by
      rw [← List.toFinset_card_of_nodup hx, ← List.toFinset_card_of_nodup hy, hset]
    rw [if_neg (by simpa using hlen)]
    refine List.all_eq_true.2 (fun k hk => ?_)
    have hmem : k ∈ x.contributors.map Prod.fst := by
      have : k ∈ (y.contributors.map Prod.fst).toFinset := List.mem_toFinset.2 hk
      rw [← hset] at this
      exact List.mem_toFinset.1 this
    simpa [List.contains] using hmem

/-- Evidence with contributors alice then bob, dated 100. -/
def evW3 : Evidence :=
  ((Evidence.init "ECO:0000314" "direct assay" contribA 100).add_contributor contribB).2

/-- Evidence with the same contributors inserted in the opposite order,
dated 777. -/
def evW4 : Evidence :=
  ((Evidence.init "ECO:0000314" "direct assay" contribB 777).add_contributor contribA).2

/-- Witness for the amended C8 at concrete inputs: duplicate-free key
lists, and the `same` verdict coincides with base-field plus key-set
agreement for two evidences with opposite insertion orders and
different dates. -/
theorem c8_amended_evidence_same_iff_witness :
    (evW3.contributors.map Prod.fst).Nodup ∧
    (evW4.contributors.map Prod.fst).Nodup ∧
    (evW3.same evW4 = true ↔
      evW3.id = evW4.id ∧ evW3.label = evW4.label ∧ evW3.type = evW4.type ∧
      (evW3.contributors.map Prod.fst).toFinset =
        (evW4.contributors.map Prod.fst).toFinset) :=
  ⟨by decide, by decide,
   c8_amended_evidence_same_iff evW3 evW4 (by decide) (by decide)⟩

/-- A concrete evidenced relationship with an empty evidence map, as
produced by `EvidencedRelationship.__init__`. -/
def erC9 : EvidencedRelationship :=
  { subject := ⟨"GO:0016301", "kinase activity", .activity⟩,
    object := ⟨"GO:0016791", "phosphatase activity", .activity⟩,
    id := "RO:0002413", label := "provides input for", type := .relationship,
    evidences := [] }

/-- Counterexample to C9 as stated: removing an absent evidence id from
a relationship, and an absent context id from a fresh GOCam catalog,
both RAISE `KeyError` (`dict.pop` with no default) instead of returning
a boolean failure. -/
theorem c9_absent_removal_raises_counterexample :
    erC9.remove_evidence "ECO:0000314" = .error .keyError ∧
    (GOCam.init "gomodel:1" "model").remove_context "GO:0005634" = .error .keyError :=
  ⟨rfl, rfl⟩

/-- C9 amended.  Removing an absent id raises `KeyError` — it is not a
reported boolean failure — and, the exception propagating before any
assignment, the respective map is unmodified (no updated object is
produced). -/
theorem c9_amended_absent_removal_raises (er : EvidencedRelationship) (g : GOCam)
    (evidence_id context_id : String)
    (h1 : (er.evidences.map Prod.fst).contains evidence_id = false)
    (h2 : (g.contexts.map Prod.fst).contains context_id = false) :
    er.remove_evidence evidence_id = .error .keyError ∧
    g.remove_context context_id = .error .keyError := by
  constructor
  · unfold EvidencedRelationship.remove_evidence
    rw [h1]
    simp
  · unfold GOCam.remove_context
    rw [h2]
    simp

/-- Witness for the amended C9 at concrete inputs. -/
theorem c9_amended_absent_removal_raises_witness :
    erC9.remove_evidence "ECO:0000314" = .error .keyError ∧
    wCam.remove_context "GO:0005634" = .error .keyError :=
  c9_amended_absent_removal_raises erC9 wCam "ECO:0000314" "GO:0005634" rfl rfl

/-- C10.  An Evidence value never has an empty contributor map:
construction installs the single required contributor, and the two
operations that touch the map (`set_contributor`, `add_contributor`)
preserve non-emptiness; `add_contributor` with an orcid already present
returns failure and leaves the object — hence the map and its count —
unchanged. -/
theorem c10_evidence_contributor_invariants (evidence_id evidence_label : String)
    (c c' : Contributor) (now : Nat) (e : Evidence) :
    (Evidence.init evidence_id evidence_label c now).contributors =
      [(c.id, c)] ∧
    (e.set_contributor c').contributors ≠ [] ∧
    (e.contributors ≠ [] → (e.add_contributor c').2.contributors ≠ []) ∧
    ((e.contributors.map Prod.fst).contains c'.id = true →
      e.add_contributor c' = (false, e)) := by
  refine ⟨rfl, by simp [Evidence.set_contributor], ?_, ?_⟩
  · intro h
    by_cases hc : (e.contributors.map Prod.fst).contains c'.id = true
    · simp only [Evidence.add_contributor, if_pos hc]
      exact h
    · simp only [Evidence.add_contributor, if_neg hc]
      simp
  · intro h
    simp only [Evidence.add_contributor, if_pos h]

/-- Witness for C10 at concrete inputs: construction yields the single
contributor, `set_contributor` and `add_contributor` keep the map
non-empty, and re-adding the already-present contributor fails leaving
the evidence unchanged. -/
theorem c10_evidence_contributor_invariants_witness :
    (Evidence.init "ECO:0000314" "direct assay" contribA 100).contributors =
      [(contribA.id, contribA)] ∧
    (evW1.set_contributor contribB).contributors ≠ [] ∧
    (evW1.add_contributor contribB).2.contributors ≠ [] ∧
    evW1.add_contributor contribA = (false, evW1) :=
  ⟨(c10_evidence_contributor_invariants "ECO:0000314" "direct assay" contribA contribB 100 evW1).1,
   (c10_evidence_contributor_invariants "ECO:0000314" "direct assay" contribA contribB 100 evW1).2.1,
   (c10_evidence_contributor_invariants "ECO:0000314" "direct assay" contribA contribB 100 evW1).2.2.1 (by decide),
   (c10_evidence_contributor_invariants "ECO:0000314" "direct assay" contribA contribA 100 evW1).2.2.2 (by decide)⟩
